import Mathlib

/-!
# Verification of the AR collection dashboard derivation pipeline

Shallow embedding of the tabular derivation pipeline of
`src/finance_titan3.py` (a pandas/streamlit dashboard).  Spreadsheet cells
are modelled as `RawCell` (a numeric value, a non-numeric text, or a
missing cell, i.e. `NaN` after `pd.read_excel`); numbers are rationals.
Tables are lists of structured rows paired with a column-name list (the
pandas `df.columns`); the validation and unguarded-column-access behaviour
of the script is modelled at the column-name level, the arithmetic at the
row level.
-/

/-- A raw spreadsheet cell as pandas sees it after `read_excel`:
a numeric value, a non-numeric text, or a missing cell (`NaN`). -/
inductive RawCell where
  | missing : RawCell
  | numeric (q : ℚ) : RawCell
  | text (s : String) : RawCell
deriving DecidableEq

/-- `pd.to_numeric(x, errors="coerce")`: numeric cells survive, anything
else becomes `NaN` (modelled as `none`).  Lines 74-78. -/
def to_numeric_coerce : RawCell → Option ℚ
  | RawCell.numeric q => some q
  | RawCell.missing => none
  | RawCell.text _ => none

/-- `.fillna(0)` on a scalar cell: `NaN` becomes `0`. -/
def fillna0 (c : Option ℚ) : ℚ := c.getD 0

/-- The composite coercion `pd.to_numeric(·, errors="coerce").fillna(0)`
applied to one cell (lines 74-78): non-numeric or missing becomes 0,
numeric values are kept.  Total: no error path exists. -/
def coerceCell (c : RawCell) : ℚ := fillna0 (to_numeric_coerce c)

/-- One raw row of the `AR_Aging` sheet, before numeric coercion. -/
structure RawAgingRow where
  customerName : Option String
  executiveName : Option String
  amount : RawCell
  c0_30 : RawCell
  c31_60 : RawCell
  c61_90 : RawCell
  c91_120 : RawCell
  c121_150 : RawCell
  c151_180 : RawCell
  c181_365 : RawCell
  cAbove365 : RawCell
deriving DecidableEq

/-- One row of the aging table after month stamping (line 56) and numeric
coercion of the amount and the eight bucket columns (lines 74-78). -/
structure AgingRow where
  customerName : Option String
  executiveName : Option String
  month : String
  amount : ℚ
  c0_30 : ℚ
  c31_60 : ℚ
  c61_90 : ℚ
  c91_120 : ℚ
  c121_150 : ℚ
  c151_180 : ℚ
  c181_365 : ℚ
  cAbove365 : ℚ
deriving DecidableEq

/-- The eight fixed aging-bucket column labels (lines 63-66). -/
def aging_cols : List String :=
  ["0-30", "31-60", "61-90", "91-120", "121-150", "151-180", "181-365", "Above 365"]

/-- The five oldest bucket labels used for the `>90 Days` column
(lines 88-90). -/
def over90_cols : List String :=
  ["91-120", "121-150", "151-180", "181-365", "Above 365"]

/-- Column access `row[label]` on a coerced aging row, for the eight
bucket labels. -/
def AgingRow.bucket (r : AgingRow) : String → ℚ
  | "0-30" => r.c0_30
  | "31-60" => r.c31_60
  | "61-90" => r.c61_90
  | "91-120" => r.c91_120
  | "121-150" => r.c121_150
  | "151-180" => r.c151_180
  | "181-365" => r.c181_365
  | "Above 365" => r.cAbove365
  | _ => 0

/-- `ar_df[aging_cols].sum(axis=1)` for one row: the `Aging Sum` column
(line 80). -/
def agingSum (r : AgingRow) : ℚ := (aging_cols.map r.bucket).sum

/-- `np.where(Amount > 0, Amount, Aging Sum)` for one row: the
`Total Outstanding` column (lines 82-86). -/
def totalOutstanding (r : AgingRow) : ℚ :=
  if r.amount > 0 then r.amount else agingSum r

/-- Row-wise sum of the five oldest buckets: the `>90 Days` column
(lines 88-90). -/
def over90 (r : AgingRow) : ℚ := (over90_cols.map r.bucket).sum

/-- Month stamping (line 56) followed by the numeric coercion of the
amount and bucket cells (lines 74-78), for one aging row. -/
def coerceAgingRow (month : String) (r : RawAgingRow) : AgingRow :=
  { customerName := r.customerName
    executiveName := r.executiveName
    month := month
    amount := coerceCell r.amount
    c0_30 := coerceCell r.c0_30
    c31_60 := coerceCell r.c31_60
    c61_90 := coerceCell r.c61_90
    c91_120 := coerceCell r.c91_120
    c121_150 := coerceCell r.c121_150
    c151_180 := coerceCell r.c151_180
    c181_365 := coerceCell r.c181_365
    cAbove365 := coerceCell r.cAbove365 }

/-- The raw bucket cells of a raw aging row, in bucket-label order. -/
def rawBuckets (r : RawAgingRow) : List RawCell :=
  [r.c0_30, r.c31_60, r.c61_90, r.c91_120, r.c121_150, r.c151_180,
   r.c181_365, r.cAbove365]

/-- A raw cell is non-negative when it is not a numeric cell holding a
negative value. -/
def RawCell.nonnegB : RawCell → Bool
  | RawCell.numeric q => decide (0 ≤ q)
  | _ => true

/-- One raw row of the `Executive_Targets` sheet.  The target and actual
columns are never coerced by the script, so a cell is either a number or
`NaN` (`none`). -/
structure RawExecRow where
  executiveName : Option String
  targetAmount : Option ℚ
  actualCollected : Option ℚ
deriving DecidableEq

/-- One row of the targets table after month stamping (line 57). -/
structure ExecRow where
  executiveName : Option String
  month : String
  targetAmount : Option ℚ
  actualCollected : Option ℚ
deriving DecidableEq

/-- Month stamping (line 57) for one targets row. -/
def stampExecRow (month : String) (r : RawExecRow) : ExecRow :=
  { executiveName := r.executiveName
    month := month
    targetAmount := r.targetAmount
    actualCollected := r.actualCollected }

/-- One raw row of the `Invoice_Details` sheet. -/
structure RawInvRow where
  customerName : Option String
  invoiceNo : Option String
  invoiceDate : Option String
  outstandingAmount : Option ℚ
  agingBucket : Option String
  executiveName : Option String
  remarks : Option String
deriving DecidableEq

/-- One row of the invoice table after month stamping (line 58). -/
structure InvRow where
  customerName : Option String
  invoiceNo : Option String
  invoiceDate : Option String
  outstandingAmount : Option ℚ
  agingBucket : Option String
  executiveName : Option String
  remarks : Option String
  month : String
deriving DecidableEq

/-- Month stamping (line 58) for one invoice row. -/
def stampInvRow (month : String) (r : RawInvRow) : InvRow :=
  { customerName := r.customerName
    invoiceNo := r.invoiceNo
    invoiceDate := r.invoiceDate
    outstandingAmount := r.outstandingAmount
    agingBucket := r.agingBucket
    executiveName := r.executiveName
    remarks := r.remarks
    month := month }

/-- `NaN`-propagating subtraction of pandas series cells. -/
def optSub : Option ℚ → Option ℚ → Option ℚ
  | some a, some b => some (a - b)
  | _, _ => none

/-- `NaN`-propagating division of pandas series cells. -/
def optDiv : Option ℚ → Option ℚ → Option ℚ
  | some a, some b => some (a / b)
  | _, _ => none

/-- `NaN`-propagating multiplication of pandas series cells. -/
def optMul : Option ℚ → Option ℚ → Option ℚ
  | some a, some b => some (a * b)
  | _, _ => none

/-- `.replace(0, np.nan)` on a scalar cell (line 161). -/
def replaceZeroNan (c : Option ℚ) : Option ℚ :=
  if c = some 0 then none else c

/-- `exec_df["Target Amount"] - exec_df["Actual Collected"]` for one row:
the `Pending` column (line 158). -/
def pendingCol (r : ExecRow) : Option ℚ :=
  optSub r.targetAmount r.actualCollected

/-- `(Actual Collected / Target Amount.replace(0, nan) * 100).fillna(0)`
for one row: the `Achievement %` column (lines 159-162). -/
def achievementPct (r : ExecRow) : ℚ :=
  fillna0 (optMul (optDiv r.actualCollected (replaceZeroNan r.targetAmount)) (some 100))

/-- The equality filter `df[df["Executive Name"] == sel]` applied to a
list of rows via the row's executive-name field; a missing name (`NaN`)
never equals `sel`, so such rows are dropped (lines 103-105). -/
def filterRows {α : Type} (execName : α → Option String) (sel : String)
    (rows : List α) : List α :=
  rows.filter (fun r => execName r == some sel)

/-- The executive filter block (lines 102-105): applied to the three
tables independently; the sentinel `"All"` disables filtering. -/
def applyExecFilter (sel : String) (ar : List AgingRow) (ex : List ExecRow)
    (inv : List InvRow) : List AgingRow × List ExecRow × List InvRow :=
  if sel = "All" then (ar, ex, inv)
  else (filterRows AgingRow.executiveName sel ar,
        filterRows ExecRow.executiveName sel ex,
        filterRows InvRow.executiveName sel inv)

/-- `["All"] + sorted(ar_df["Executive Name"].dropna().unique())`
(line 99): the options of the executive selectbox. -/
def executives (ar : List AgingRow) : List String :=
  "All" :: ((ar.filterMap AgingRow.executiveName).dedup.insertionSort (· ≤ ·))

/-- The required columns of the `AR_Aging` sheet (line 68). -/
def required_ar_cols : List String :=
  ["Customer Name", "Executive Name", "Amount"] ++ aging_cols

/-- The validation loop of lines 69-72: the first required column absent
from the aging sheet's column list, if any. -/
def firstMissingARCol (cols : List String) : Option String :=
  required_ar_cols.find? (fun c => !(cols.contains c))

/-- The ways the script halts or crashes while deriving the tables:
`missingColumn` is the `st.error`/`st.stop` of lines 71-72,
`emptyDataset` the `st.warning`/`st.stop` of lines 93-94, and
`keyError` an unhandled pandas `KeyError` from accessing a column that
does not exist (no guard in the script). -/
inductive PipelineError where
  | missingColumn (col : String)
  | emptyDataset
  | keyError (col : String)
deriving DecidableEq

/-- The `AR_Aging` sheet as loaded: its column names and its rows. -/
structure ARFrame where
  cols : List String
  rows : List RawAgingRow
deriving DecidableEq

/-- The `Executive_Targets` sheet as loaded. -/
structure ExecFrame where
  cols : List String
  rows : List RawExecRow
deriving DecidableEq

/-- The `Invoice_Details` sheet as loaded. -/
structure InvFrame where
  cols : List String
  rows : List RawInvRow
deriving DecidableEq

/-- The derivation pipeline, lines 56-105: stamp the month, validate the
aging sheet's required columns (halting on the first missing one), coerce
and derive the aging columns, halt when the aging table is empty, then
apply the executive filter.  When a specific executive is selected, the
filter reads the `Executive Name` column of the targets and invoice
sheets without any validation: a missing column there surfaces as an
unhandled `KeyError`. -/
def runPipeline (arF : ARFrame) (exF : ExecFrame) (invF : InvFrame)
    (month sel : String) :
    Except PipelineError (List AgingRow × List ExecRow × List InvRow) :=
  match firstMissingARCol arF.cols with
  | some c => Except.error (PipelineError.missingColumn c)
  | none =>
      let ar := arF.rows.map (coerceAgingRow month)
      if ar.isEmpty then Except.error PipelineError.emptyDataset
      else
        let ex := exF.rows.map (stampExecRow month)
        let inv := invF.rows.map (stampInvRow month)
        if sel = "All" then Except.ok (ar, ex, inv)
        else if !(exF.cols.contains "Executive Name") then
          Except.error (PipelineError.keyError "Executive Name")
        else if !(invF.cols.contains "Executive Name") then
          Except.error (PipelineError.keyError "Executive Name")
        else Except.ok (applyExecFilter sel ar ex inv)

/-- A targets row with its two derived columns (lines 158-162). -/
structure ExecDerivedRow where
  base : ExecRow
  pending : Option ℚ
  achievement : ℚ
deriving DecidableEq

/-- The derivation of lines 158-162 for one targets row. -/
def deriveExecRow (r : ExecRow) : ExecDerivedRow :=
  { base := r, pending := pendingCol r, achievement := achievementPct r }

/-- The Executive Performance view's derivation step (lines 158-162): it
reads the `Target Amount` and `Actual Collected` columns with no
validation, so a sheet lacking one of them raises an unhandled
`KeyError` naming that column; otherwise every row is derived. -/
def execPerformanceView (cols : List String) (rows : List ExecRow) :
    Except PipelineError (List ExecDerivedRow) :=
  if !(cols.contains "Target Amount") then
    Except.error (PipelineError.keyError "Target Amount")
  else if !(cols.contains "Actual Collected") then
    Except.error (PipelineError.keyError "Actual Collected")
  else Except.ok (rows.map deriveExecRow)

/-- The aging row of the spec's worked example: amount 0 and buckets
`[100, 0, 0, 200, 0, 0, 0, 0]` in bucket-label order. -/
def exampleAgingRow : RawAgingRow :=
  { customerName := some "Acme"
    executiveName := some "Asha"
    amount := RawCell.numeric 0
    c0_30 := RawCell.numeric 100
    c31_60 := RawCell.numeric 0
    c61_90 := RawCell.numeric 0
    c91_120 := RawCell.numeric 200
    c121_150 := RawCell.numeric 0
    c151_180 := RawCell.numeric 0
    c181_365 := RawCell.numeric 0
    cAbove365 := RawCell.numeric 0 }

/-- An aging row holding a negative numeric cell in the `0-30` bucket:
the coercion of lines 74-78 keeps negative numbers unchanged. -/
def badAgingRow : RawAgingRow :=
  { customerName := some "Acme"
    executiveName := some "Asha"
    amount := RawCell.numeric 0
    c0_30 := RawCell.numeric (-50)
    c31_60 := RawCell.numeric 0
    c61_90 := RawCell.numeric 0
    c91_120 := RawCell.numeric 0
    c121_150 := RawCell.numeric 0
    c151_180 := RawCell.numeric 0
    c181_365 := RawCell.numeric 0
    cAbove365 := RawCell.numeric 0 }

/-- The full column list of a well-formed `AR_Aging` sheet after month
stamping. -/
def fullARCols : List String :=
  ["Customer Name", "Executive Name", "Amount", "0-30", "31-60", "61-90",
   "91-120", "121-150", "151-180", "181-365", "Above 365", "Month"]

/-- A well-formed one-row `AR_Aging` sheet. -/
def sampleARFrame : ARFrame := { cols := fullARCols, rows := [exampleAgingRow] }

/-- An `AR_Aging` sheet whose `61-90` column is absent. -/
def arFrameNo61_90 : ARFrame :=
  { cols := ["Customer Name", "Executive Name", "Amount", "0-30", "31-60",
             "91-120", "121-150", "151-180", "181-365", "Above 365", "Month"]
    rows := [exampleAgingRow] }

/-- An `Executive_Targets` sheet that lacks the `Target Amount` column
the Executive Performance view reads. -/
def noTargetExecFrame : ExecFrame :=
  { cols := ["Executive Name", "Actual Collected", "Month"]
    rows := [{ executiveName := some "Asha", targetAmount := none,
               actualCollected := some 50 }] }

/-- A well-formed empty `Executive_Targets` sheet. -/
def emptyExecFrame : ExecFrame :=
  { cols := ["Executive Name", "Target Amount", "Actual Collected", "Month"]
    rows := [] }

/-- A well-formed empty `Invoice_Details` sheet. -/
def emptyInvFrame : InvFrame :=
  { cols := ["Customer Name", "Invoice No", "Invoice Date",
             "Outstanding Amount", "Aging Bucket", "Executive Name",
             "Remarks", "Month"]
    rows := [] }

/-- A cell that passes the non-negativity check coerces to a non-negative
value. -/
theorem coerceCell_nonneg (c : RawCell) (h : c.nonnegB = true) :
    0 ≤ coerceCell c := by
  cases c with
  | missing => simp [coerceCell, to_numeric_coerce, fillna0]
  | text s => simp [coerceCell, to_numeric_coerce, fillna0]
  | numeric q =>
      simpa [coerceCell, to_numeric_coerce, fillna0] using of_decide_eq_true h

/-- Every row kept by the equality filter has the selected executive
name. -/
theorem filterRows_mem {α : Type} (f : α → Option String) (sel : String)
    (rows : List α) : ∀ r ∈ filterRows f sel rows, f r = some sel := by
  intro r hr
  have h := List.mem_filter.mp hr
  simpa using h.2

/-- The kept rows and the dropped rows of the equality filter together
are a permutation of the original rows. -/
theorem filterRows_partition {α : Type} (f : α → Option String) (sel : String)
    (rows : List α) :
    List.Perm (filterRows f sel rows ++
      rows.filter (fun r => !(f r == some sel))) rows :=
  List.filter_append_perm _ rows

/-- C1: after numeric coercion, a row's `Total Outstanding` equals its
amount when the amount is strictly positive and otherwise the sum of the
eight bucket columns; on the spec's example row (amount 0, buckets
`[100,0,0,200,0,0,0,0]`) it is 300 and `>90 Days` is 200. -/
theorem C1_totalOutstanding_spec :
    (∀ (month : String) (r : RawAgingRow),
      totalOutstanding (coerceAgingRow month r) =
        if 0 < coerceCell r.amount then coerceCell r.amount
        else coerceCell r.c0_30 + coerceCell r.c31_60 + coerceCell r.c61_90 +
          coerceCell r.c91_120 + coerceCell r.c121_150 + coerceCell r.c151_180 +
          coerceCell r.c181_365 + coerceCell r.cAbove365) ∧
    totalOutstanding (coerceAgingRow "Jan-2026" exampleAgingRow) = 300 ∧
    over90 (coerceAgingRow "Jan-2026" exampleAgingRow) = 200 := by
  refine ⟨fun month r => ?_, ?_, ?_⟩
  · by_cases h : 0 < coerceCell r.amount
    · simp [totalOutstanding, coerceAgingRow, h]
    · simp [totalOutstanding, coerceAgingRow, h, agingSum, aging_cols,
        AgingRow.bucket]
      ring
  · norm_num [totalOutstanding, coerceAgingRow, exampleAgingRow, agingSum,
      aging_cols, AgingRow.bucket, coerceCell, to_numeric_coerce, fillna0]
  · norm_num [over90, coerceAgingRow, exampleAgingRow, over90_cols,
      AgingRow.bucket, coerceCell, to_numeric_coerce, fillna0]

/-- C4: the coercion step maps a missing cell and a non-numeric cell to 0
and keeps a numeric cell unchanged; it is a total function, so no input
cell can make it raise or signal an error. -/
theorem C4_coercion_spec :
    coerceCell RawCell.missing = 0 ∧
    (∀ s : String, coerceCell (RawCell.text s) = 0) ∧
    (∀ q : ℚ, coerceCell (RawCell.numeric q) = q) :=
  ⟨rfl, fun _ => rfl, fun _ => rfl⟩

/-- C2 counterexample: on a row whose `0-30` bucket cell holds the
numeric value −50 (amount 0, all other buckets 0), the coercion keeps the
negative value, so the coerced bucket is negative, `Total Outstanding`
is negative, and `>90 Days` exceeds `Aging Sum`. -/
theorem C2_counterexample :
    (coerceAgingRow "Jan-2026" badAgingRow).c0_30 < 0 ∧
    totalOutstanding (coerceAgingRow "Jan-2026" badAgingRow) < 0 ∧
    agingSum (coerceAgingRow "Jan-2026" badAgingRow) <
      over90 (coerceAgingRow "Jan-2026" badAgingRow) := by
  refine ⟨?_, ?_, ?_⟩
  · norm_num [coerceAgingRow, badAgingRow, coerceCell, to_numeric_coerce, fillna0]
  · norm_num [totalOutstanding, coerceAgingRow, badAgingRow, coerceCell,
      to_numeric_coerce, fillna0, agingSum, aging_cols, AgingRow.bucket]
  · norm_num [agingSum, over90, coerceAgingRow, badAgingRow, coerceCell,
      to_numeric_coerce, fillna0, aging_cols, over90_cols, AgingRow.bucket]

/-- C2 (amended): when no raw bucket cell of the row holds a negative
numeric value, then after coercion every bucket value is non-negative,
`Total Outstanding` is non-negative, and `>90 Days` is at most
`Aging Sum`. -/
theorem C2_nonneg_invariants (month : String) (r : RawAgingRow)
    (h : ∀ c ∈ rawBuckets r, c.nonnegB = true) :
    (∀ col ∈ aging_cols, 0 ≤ (coerceAgingRow month r).bucket col) ∧
    0 ≤ totalOutstanding (coerceAgingRow month r) ∧
    over90 (coerceAgingRow month r) ≤ agingSum (coerceAgingRow month r) := by
  have h0 : 0 ≤ coerceCell r.c0_30 :=
    coerceCell_nonneg _ (h _ (by simp [rawBuckets]))
  have h1 : 0 ≤ coerceCell r.c31_60 :=
    coerceCell_nonneg _ (h _ (by simp [rawBuckets]))
  have h2 : 0 ≤ coerceCell r.c61_90 :=
    coerceCell_nonneg _ (h _ (by simp [rawBuckets]))
  have h3 : 0 ≤ coerceCell r.c91_120 :=
    coerceCell_nonneg _ (h _ (by simp [rawBuckets]))
  have h4 : 0 ≤ coerceCell r.c121_150 :=
    coerceCell_nonneg _ (h _ (by simp [rawBuckets]))
  have h5 : 0 ≤ coerceCell r.c151_180 :=
    coerceCell_nonneg _ (h _ (by simp [rawBuckets]))
  have h6 : 0 ≤ coerceCell r.c181_365 :=
    coerceCell_nonneg _ (h _ (by simp [rawBuckets]))
  have h7 : 0 ≤ coerceCell r.cAbove365 :=
    coerceCell_nonneg _ (h _ (by simp [rawBuckets]))
  refine ⟨?_, ?_, ?_⟩
  · intro col hcol
    simp only [aging_cols, List.mem_cons, List.not_mem_nil, or_false] at hcol
    rcases hcol with rfl | rfl | rfl | rfl | rfl | rfl | rfl | rfl <;>
      simpa [coerceAgingRow, AgingRow.bucket] using
        (by assumption : (0:ℚ) ≤ _)
  · rw [totalOutstanding]
    split
    · linarith [lt_of_lt_of_le (by norm_num : (0:ℚ) < 1) (le_refl (1:ℚ))]
    · simp [agingSum, aging_cols, AgingRow.bucket, coerceAgingRow]
      linarith
  · simp [agingSum, over90, aging_cols, over90_cols, AgingRow.bucket,
      coerceAgingRow]
    linarith

/-- C2 witness: the amended invariants hold on the spec's example row,
whose bucket cells are all non-negative numbers. -/
theorem C2_nonneg_invariants_witness :
    (∀ col ∈ aging_cols, 0 ≤ (coerceAgingRow "Jan-2026" exampleAgingRow).bucket col) ∧
    0 ≤ totalOutstanding (coerceAgingRow "Jan-2026" exampleAgingRow) ∧
    over90 (coerceAgingRow "Jan-2026" exampleAgingRow) ≤
      agingSum (coerceAgingRow "Jan-2026" exampleAgingRow) :=
  C2_nonneg_invariants "Jan-2026" exampleAgingRow (by
    intro c hc
    simp only [rawBuckets, exampleAgingRow, List.mem_cons, List.not_mem_nil,
      or_false] at hc
    rcases hc with rfl | rfl | rfl | rfl | rfl | rfl | rfl | rfl <;>
      simp [RawCell.nonnegB])

/-- C3: after numeric coercion, the `>90 Days` value of the i-th derived
row equals the sum of exactly the five oldest bucket cells of the i-th
raw row: the derivation is row-wise, with no dependency on any other
row. -/
theorem C3_over90_rowwise (month : String) (rows : List RawAgingRow) (i : Nat)
    (h : i < rows.length) :
    over90 ((rows.map (coerceAgingRow month)).get ⟨i, by simpa using h⟩) =
      coerceCell (rows.get ⟨i, h⟩).c91_120 +
      coerceCell (rows.get ⟨i, h⟩).c121_150 +
      coerceCell (rows.get ⟨i, h⟩).c151_180 +
      coerceCell (rows.get ⟨i, h⟩).c181_365 +
      coerceCell (rows.get ⟨i, h⟩).cAbove365 := by
  rw [List.get_map]
  simp [over90, over90_cols, AgingRow.bucket, coerceAgingRow]
  ring

/-- C3 witness: instantiated on the one-row table holding the spec's
example row, where the sum of the five oldest coerced buckets is the
`>90 Days` value of row 0. -/
theorem C3_over90_rowwise_witness :
    over90 (([exampleAgingRow].map (coerceAgingRow "Jan-2026")).get
        ⟨0, by simp⟩) =
      coerceCell ([exampleAgingRow].get ⟨0, by simp⟩).c91_120 +
      coerceCell ([exampleAgingRow].get ⟨0, by simp⟩).c121_150 +
      coerceCell ([exampleAgingRow].get ⟨0, by simp⟩).c151_180 +
      coerceCell ([exampleAgingRow].get ⟨0, by simp⟩).c181_365 +
      coerceCell ([exampleAgingRow].get ⟨0, by simp⟩).cAbove365 :=
  C3_over90_rowwise "Jan-2026" [exampleAgingRow] 0 (by simp)

/-- C5: when a required aging column is absent, the pipeline halts with a
`MissingColumnError` naming a required column that is indeed absent, and
no enriched tables are produced. -/
theorem C5_missing_column (arF : ARFrame) (exF : ExecFrame) (invF : InvFrame)
    (month sel : String) (h : ∃ c ∈ required_ar_cols, c ∉ arF.cols) :
    ∃ c ∈ required_ar_cols, c ∉ arF.cols ∧
      runPipeline arF exF invF month sel =
        Except.error (PipelineError.missingColumn c) ∧
      ∀ out, runPipeline arF exF invF month sel ≠ Except.ok out := by
  obtain ⟨c, hc, hnc⟩ := h
  have hsome : (required_ar_cols.find? (fun c => !(arF.cols.contains c))).isSome := by
    rw [List.find?_isSome]
    exact ⟨c, hc, by simpa using hnc⟩
  obtain ⟨c', hfind⟩ := Option.isSome_iff_exists.mp hsome
  have hmem : c' ∈ required_ar_cols := List.mem_of_find?_eq_some hfind
  have hp := List.find?_some hfind
  have hrun : runPipeline arF exF invF month sel =
      Except.error (PipelineError.missingColumn c') := by
    rw [runPipeline, firstMissingARCol, hfind]
  refine ⟨c', hmem, by simpa using hp, hrun, ?_⟩
  intro out hout
  rw [hrun] at hout
  exact Except.noConfusion hout

/-- C5 witness: a sheet missing exactly the `61-90` column halts with a
`MissingColumnError`. -/
theorem C5_missing_column_witness :
    ∃ c ∈ required_ar_cols, c ∉ arFrameNo61_90.cols ∧
      runPipeline arFrameNo61_90 emptyExecFrame emptyInvFrame "Jan-2026" "All" =
        Except.error (PipelineError.missingColumn c) ∧
      ∀ out, runPipeline arFrameNo61_90 emptyExecFrame emptyInvFrame
          "Jan-2026" "All" ≠ Except.ok out :=
  C5_missing_column arFrameNo61_90 emptyExecFrame emptyInvFrame "Jan-2026" "All"
    ⟨"61-90", by decide, by decide⟩

/-- C6: for numeric target and actual cells, `Pending` is target minus
actual and `Achievement %` is actual/target × 100 for a nonzero target;
whenever the target is zero or missing, `Achievement %` is 0 whatever
the actual cell holds. -/
theorem C6_exec_derivation :
    (∀ (n : Option String) (m : String) (t a : ℚ),
        pendingCol ⟨n, m, some t, some a⟩ = some (t - a) ∧
        achievementPct ⟨n, m, some t, some a⟩ =
          if t = 0 then 0 else a / t * 100) ∧
    (∀ (n : Option String) (m : String) (act : Option ℚ),
        achievementPct ⟨n, m, some 0, act⟩ = 0 ∧
        achievementPct ⟨n, m, none, act⟩ = 0) := by
  constructor
  · intro n m t a
    refine ⟨rfl, ?_⟩
    by_cases ht : t = 0 <;>
      simp [achievementPct, replaceZeroNan, optDiv, optMul, fillna0, ht]
  · intro n m act
    constructor <;> cases act <;>
      simp [achievementPct, replaceZeroNan, optDiv, optMul, fillna0]

/-- C7: when a specific (non-sentinel) executive is selected, each of the
three filtered tables contains only rows whose executive name equals the
selection, and for each table the kept and dropped rows together are a
permutation of the original table; the `"All"` sentinel leaves all three
tables unchanged. -/
theorem C7_filter_spec (sel : String) (ar : List AgingRow) (ex : List ExecRow)
    (inv : List InvRow) (hsel : sel ≠ "All") :
    (∀ r ∈ (applyExecFilter sel ar ex inv).1, r.executiveName = some sel) ∧
    (∀ r ∈ (applyExecFilter sel ar ex inv).2.1, r.executiveName = some sel) ∧
    (∀ r ∈ (applyExecFilter sel ar ex inv).2.2, r.executiveName = some sel) ∧
    List.Perm ((applyExecFilter sel ar ex inv).1 ++
      ar.filter (fun r => !(r.executiveName == some sel))) ar ∧
    List.Perm ((applyExecFilter sel ar ex inv).2.1 ++
      ex.filter (fun r => !(r.executiveName == some sel))) ex ∧
    List.Perm ((applyExecFilter sel ar ex inv).2.2 ++
      inv.filter (fun r => !(r.executiveName == some sel))) inv ∧
    applyExecFilter "All" ar ex inv = (ar, ex, inv) := by
  rw [applyExecFilter, if_neg hsel]
  exact ⟨filterRows_mem _ sel ar, filterRows_mem _ sel ex,
    filterRows_mem _ sel inv, filterRows_partition _ sel ar,
    filterRows_partition _ sel ex, filterRows_partition _ sel inv,
    by rw [applyExecFilter, if_pos rfl]⟩

/-- C7 witness: filtering the one-row tables by the executive `"Asha"`. -/
theorem C7_filter_spec_witness :
    (∀ r ∈ (applyExecFilter "Asha"
        [coerceAgingRow "Jan-2026" exampleAgingRow] [] []).1,
      r.executiveName = some "Asha") ∧
    (∀ r ∈ (applyExecFilter "Asha"
        [coerceAgingRow "Jan-2026" exampleAgingRow] [] []).2.1,
      r.executiveName = some "Asha") ∧
    (∀ r ∈ (applyExecFilter "Asha"
        [coerceAgingRow "Jan-2026" exampleAgingRow] [] []).2.2,
      r.executiveName = some "Asha") ∧
    List.Perm ((applyExecFilter "Asha"
        [coerceAgingRow "Jan-2026" exampleAgingRow] [] []).1 ++
      [coerceAgingRow "Jan-2026" exampleAgingRow].filter
        (fun r => !(r.executiveName == some "Asha")))
      [coerceAgingRow "Jan-2026" exampleAgingRow] ∧
    List.Perm ((applyExecFilter "Asha"
        [coerceAgingRow "Jan-2026" exampleAgingRow] [] []).2.1 ++
      List.filter (fun r => !(r.executiveName == some "Asha")) []) [] ∧
    List.Perm ((applyExecFilter "Asha"
        [coerceAgingRow "Jan-2026" exampleAgingRow] [] []).2.2 ++
      List.filter (fun r => !(r.executiveName == some "Asha")) []) [] ∧
    applyExecFilter "All" [coerceAgingRow "Jan-2026" exampleAgingRow] [] [] =
      ([coerceAgingRow "Jan-2026" exampleAgingRow], [], []) :=
  C7_filter_spec "Asha" [coerceAgingRow "Jan-2026" exampleAgingRow] [] []
    (by decide)

/-- C8: the pipeline is a pure function of the uploaded sheets, the month
label and the executive selection: two invocations on identical inputs
produce identical enriched tables. -/
theorem C8_pipeline_deterministic (arF arF2 : ARFrame) (exF exF2 : ExecFrame)
    (invF invF2 : InvFrame) (month month2 sel sel2 : String)
    (h1 : arF = arF2) (h2 : exF = exF2) (h3 : invF = invF2)
    (h4 : month = month2) (h5 : sel = sel2) :
    runPipeline arF exF invF month sel =
      runPipeline arF2 exF2 invF2 month2 sel2 := by
  rw [h1, h2, h3, h4, h5]

/-- C8 witness: two runs on the sample sheets give the same result. -/
theorem C8_pipeline_deterministic_witness :
    runPipeline sampleARFrame emptyExecFrame emptyInvFrame "Jan-2026" "All" =
      runPipeline sampleARFrame emptyExecFrame emptyInvFrame "Jan-2026" "All" :=
  C8_pipeline_deterministic sampleARFrame sampleARFrame emptyExecFrame
    emptyExecFrame emptyInvFrame emptyInvFrame "Jan-2026" "Jan-2026"
    "All" "All" rfl rfl rfl rfl rfl

/-- C9: the executive selector offers a name exactly when it is the
`"All"` sentinel or occurs as some row's executive name in the aging
table, and the non-sentinel options are pairwise distinct. -/
theorem C9_executives_spec (ar : List AgingRow) :
    (∀ n : String, n ∈ executives ar ↔
      n = "All" ∨ ∃ r ∈ ar, r.executiveName = some n) ∧
    (executives ar).tail.Nodup := by
  constructor
  · intro n
    simp [executives, List.mem_insertionSort, List.mem_dedup,
      List.mem_filterMap]
  · show ((ar.filterMap AgingRow.executiveName).dedup.insertionSort (· ≤ ·)).Nodup
    exact (List.perm_insertionSort _ _).nodup_iff.mpr (List.nodup_dedup _)

/-- C10: on an upload whose targets sheet lacks the `Target Amount`
column, the pipeline raises no `MissingColumnError` (validation covers
only the aging sheet) and produces the enriched tables; the Executive
Performance view then hits an unguarded access and fails with an
unhandled `KeyError`, which is not a `MissingColumnError`. -/
theorem C10_unvalidated_sheets :
    (∀ c, runPipeline sampleARFrame noTargetExecFrame emptyInvFrame
        "Jan-2026" "All" ≠ Except.error (PipelineError.missingColumn c)) ∧
    (∃ out, runPipeline sampleARFrame noTargetExecFrame emptyInvFrame
        "Jan-2026" "All" = Except.ok out) ∧
    execPerformanceView noTargetExecFrame.cols
        (noTargetExecFrame.rows.map (stampExecRow "Jan-2026")) =
      Except.error (PipelineError.keyError "Target Amount") ∧
    (∀ c, PipelineError.keyError "Target Amount" ≠
      PipelineError.missingColumn c) := by
  have hok : runPipeline sampleARFrame noTargetExecFrame emptyInvFrame
      "Jan-2026" "All" =
      Except.ok ([coerceAgingRow "Jan-2026" exampleAgingRow],
        [stampExecRow "Jan-2026"
          { executiveName := some "Asha", targetAmount := none,
            actualCollected := some 50 }], []) := rfl
  refine ⟨?_, ⟨_, hok⟩, rfl, ?_⟩
  · intro c hbad
    rw [hok] at hbad
    exact Except.noConfusion hbad
  · intro c hbad
    exact PipelineError.noConfusion hbad
